import Mathlib

/-
Verification of the crime-to-safety-score aggregation engine
(src/src/safety-metrics/process_safety_metrics.py).

The engine is embedded shallowly:
  * numeric columns (coordinates, days_ago, rates) are modelled as exact
    rationals; the one transcendental quantity, the exponential time weight,
    is modelled over the reals as `timeWeight` and the downstream pipeline is
    parametrised by the weight column it produces;
  * the pandas DataFrame is a `List CrimeRecord`;
  * `pd.to_datetime(..., errors="coerce")` / `pd.to_numeric(..., errors="coerce")`
    outcomes are `Option` fields of a `RawRecord`;
  * per-record uuid4 and datetime.now() calls are an indexed supply of
    identifier/timestamp strings.
-/

namespace SafetyProc

/-- Temporal weighting (line 203): `np.exp(-days_ago * (np.log(2) / 180))`. -/
noncomputable def timeWeight (d : ℝ) : ℝ :=
  Real.exp (-d * (Real.log 2 / 180))

/-- A validated crime record, one row of the DataFrame produced by
`process_crime_data`: coordinates, crime code, derived hour and days_ago
columns, and the time-weight column. -/
structure CrimeRecord where
  lat : ℚ
  lon : ℚ
  crm_cd : String
  hour : ℤ
  days_ago : ℚ
  time_weight : ℚ
deriving DecidableEq, Repr

/-- One entry of the SAFETY_METRICS configuration table (lines 33-60). -/
structure MetricConfig where
  question : String
  description : String
  crime_codes : List String
  time_filter : Option (ℤ → Bool)

def nightConfig : MetricConfig :=
  { question := "Can I go outside after dark?"
    description := "Safety for pedestrians during evening/night hours"
    crime_codes := ["210", "220", "230", "231", "235", "236", "250", "251", "761", "762", "763", "860"]
    time_filter := some (fun h => decide (18 ≤ h) || decide (h < 6)) }

def vehicleConfig : MetricConfig :=
  { question := "Can I park here safely?"
    description := "Risk of vehicle theft and break-ins"
    crime_codes := ["330", "331", "410", "420", "421", "330", "331", "440", "441", "442", "443", "444", "445"]
    time_filter := none }

def childConfig : MetricConfig :=
  { question := "Are kids safe here?"
    description := "Overall safety concerning crimes that could affect children"
    crime_codes := ["235", "236", "627", "760", "762", "922", "237", "812", "813", "814", "815"]
    time_filter := none }

def transitConfig : MetricConfig :=
  { question := "Is it safe to use public transport?"
    description := "Safety at and around transit locations"
    crime_codes := ["210", "220", "230", "231", "476", "946", "761", "762", "763", "475", "352"]
    time_filter := none }

def womenConfig : MetricConfig :=
  { question := "Would I be harassed here?"
    description := "Assessment of crimes that disproportionately affect women"
    crime_codes := ["121", "122", "815", "820", "821", "236", "626", "627", "647", "860", "921", "922"]
    time_filter := none }

/-- The SAFETY_METRICS table, in source order. -/
def SAFETY_METRICS : List (String × MetricConfig) :=
  [("night", nightConfig), ("vehicle", vehicleConfig), ("child", childConfig),
   ("transit", transitConfig), ("women", womenConfig)]

/-- Category/time filtering of a record set for one metric (lines 242-244 and
287-291): `isin(config.crime_codes)` then the optional `time_filter` on the
hour column. -/
def qualifying (cfg : MetricConfig) (rs : List CrimeRecord) : List CrimeRecord :=
  (rs.filter (fun r => cfg.crime_codes.contains r.crm_cd)).filter
    (fun r => match cfg.time_filter with
      | some f => f r.hour
      | none => true)

/-- Sum of the time_weight column. -/
def weightSum (rs : List CrimeRecord) : ℚ :=
  (rs.map (fun r => r.time_weight)).sum

/-- Lower bound of the k-th latitude bucket: `np.arange(33.70, 34.83, 0.01)`
(line 234) yields 113 values 33.70 + k * 0.01, k = 0..112. -/
def latLB (k : ℕ) : ℚ := 337/10 + (k : ℚ)/100

/-- Lower bound of the j-th longitude bucket: `np.arange(-118.67, -117.65, 0.01)`
(line 235) yields 102 values -118.67 + j * 0.01, j = 0..101. -/
def lonLB (j : ℕ) : ℚ := -11867/100 + (j : ℚ)/100

def lats : List ℚ := (List.range 113).map latLB

def lons : List ℚ := (List.range 102).map lonLB

/-- The grid traversal order of the nested loops (lines 267-268). -/
def gridCells : List (ℚ × ℚ) :=
  lats.flatMap (fun la => lons.map (fun lo => (la, lo)))

/-- The cell filter mask (lines 274-277): pandas `between` is inclusive at
both endpoints. -/
def cellMask (la lo : ℚ) (r : CrimeRecord) : Bool :=
  decide (la ≤ r.lat) && decide (r.lat ≤ la + 1/100) &&
  decide (lo ≤ r.lon) && decide (r.lon ≤ lo + 1/100)

/-- `grid_crimes = crime_data[mask]` (line 278). -/
def cellRecords (data : List CrimeRecord) (la lo : ℚ) : List CrimeRecord :=
  data.filter (cellMask la lo)

/-- Citywide weighted rate for one metric (line 250):
`total_weighted_crimes / crime_data.time_weight.sum() if len(crime_data) > 0 else 0`. -/
def citywideRate (data : List CrimeRecord) (cfg : MetricConfig) : ℚ :=
  if 0 < data.length then weightSum (qualifying cfg data) / weightSum data else 0

/-- Relative rate (line 298): `local / citywide if citywide > 0 else 1`. -/
def relativeRate (localRate cw : ℚ) : ℚ :=
  if 0 < cw then localRate / cw else 1

/-- The threshold ladder of lines 301-312, first match wins; returns
(score, risk_level). -/
def scoreRisk (rr : ℚ) : ℕ × String :=
  if rr ≤ 3/10 then (8, "Low risk")
  else if rr ≤ 7/10 then (6, "Medium risk")
  else if rr ≤ 3/2 then (4, "High risk")
  else (2, "Maximum risk")

/-- Annualized recent rate (line 320):
`recent_crimes / 90 * 365 if recent_crimes > 0 else 0`. -/
def recentRateOf (recent : ℕ) : ℚ :=
  if 0 < recent then (recent : ℚ) / 90 * 365 else 0

/-- `days_covered = crimes.days_ago.max() or 1` (line 317): the Python `or`
falls back to 1 exactly when the maximum is (falsy) zero. -/
def daysCoveredOf (m : ℚ) : ℚ :=
  if m = 0 then 1 else m

/-- Annualized historical rate (line 321): `total_crimes / days_covered * 365`. -/
def historicalRateOf (total : ℕ) (daysCov : ℚ) : ℚ :=
  (total : ℚ) / daysCov * 365

/-- Modelled from the spec for comparison with `historicalRateOf` (claim C4):
the spec states `historical_rate = total_count / max(days_span, 1) * 365`. -/
def specHistoricalRate (total : ℕ) (span : ℚ) : ℚ :=
  (total : ℚ) / max span 1 * 365

/-- Trend indicator (lines 324-329). -/
def trendOf (recent hist : ℚ) : String :=
  if hist * (6/5) < recent then "↑"
  else if recent < hist * (4/5) then "↓"
  else "→"

/-- Maximum of the days_ago column (`crimes.days_ago.max()`), used only on
nonempty frames. -/
def maxDaysAgo : List CrimeRecord → ℚ
  | [] => 0
  | r :: rs => rs.foldl (fun m x => max m x.days_ago) r.days_ago

/-- Rendering of `f"{q:.2f}"` used inside the debug string (line 335). -/
def fmt2 (q : ℚ) : String :=
  let n : ℤ := Rat.floor (q * 100 + 1/2)
  toString (n / 100) ++ "." ++ (if n % 100 < 10 then "0" else "") ++ toString (n % 100)

/-- The debug suffix of the description (lines 332-336). -/
def debugInfo (total recent : ℕ) (trend : String) (rr : ℚ) : String :=
  " [Debug: " ++ toString total ++ " incidents (" ++ toString recent ++
  " in last 90 days) " ++ trend ++ ", " ++ fmt2 rr ++ "x city average]"

/-- The deterministic part of one emitted metric record: everything except
the generated id and the created_at/expires_at timestamps. -/
structure MetricData where
  latitude : ℚ
  longitude : ℚ
  metric_type : String
  score : ℕ
  question : String
  description : String
deriving DecidableEq, Repr

/-- Assembly of the deterministic fields of one (cell, metric) output record
(lines 296-352). -/
def mkMetricData (data : List CrimeRecord) (la lo : ℚ) (mt : String)
    (cfg : MetricConfig) (grid crimes : List CrimeRecord) : MetricData :=
  let localRate := weightSum crimes / weightSum grid
  let rr := relativeRate localRate (citywideRate data cfg)
  let sr := scoreRisk rr
  let recent := (crimes.filter (fun r => decide (r.days_ago ≤ 90))).length
  let total := crimes.length
  let hrate := historicalRateOf total (daysCoveredOf (maxDaysAgo crimes))
  let tr := trendOf (recentRateOf recent) hrate
  { latitude := la + 1/200
    longitude := lo + 1/200
    metric_type := mt
    score := sr.1
    question := cfg.question
    description := sr.2 ++ ". " ++ cfg.description ++ debugInfo total recent tr rr }

/-- Per-cell emission (lines 273-352): skip an empty cell, then emit one
record per metric with at least one qualifying crime. -/
def cellMetricsData (data : List CrimeRecord) (la lo : ℚ) : List MetricData :=
  let grid := cellRecords data la lo
  if grid.isEmpty then []
  else
    SAFETY_METRICS.filterMap (fun mc =>
      let crimes := qualifying mc.2 grid
      if crimes.isEmpty then none
      else some (mkMetricData data la lo mc.1 mc.2 grid crimes))

/-- All emitted (cell, metric) records, in the traversal order of the nested
loops of `calculate_safety_metrics`. -/
def allMetricsData (data : List CrimeRecord) : List MetricData :=
  gridCells.flatMap (fun c => cellMetricsData data c.1 c.2)

/-- One full output record as appended at lines 342-352. -/
structure SafetyMetric where
  id : String
  latitude : ℚ
  longitude : ℚ
  metric_type : String
  score : ℕ
  question : String
  description : String
  created_at : String
  expires_at : String
deriving DecidableEq, Repr

/-- The keys of the dict literal built at lines 342-352, in source order. -/
def safetyMetricKeys : List String :=
  ["id", "latitude", "longitude", "metric_type", "score", "question",
   "description", "created_at", "expires_at"]

def mkMetric (d : MetricData) (i c e : String) : SafetyMetric :=
  { id := i
    latitude := d.latitude
    longitude := d.longitude
    metric_type := d.metric_type
    score := d.score
    question := d.question
    description := d.description
    created_at := c
    expires_at := e }

/-- `calculate_safety_metrics`: the n-th emitted record receives the n-th
identifier from the uuid4 supply `genId` and the n-th pair of wall-clock
strings from `genNow` / `genExp` (lines 339-343, 350-351). -/
def calcMetrics (data : List CrimeRecord) (genId genNow genExp : ℕ → String) :
    List SafetyMetric :=
  (allMetricsData data).enum.map (fun p => mkMetric p.2 (genId p.1) (genNow p.1) (genExp p.1))

/-- Projection onto the deterministic fields of an output record. -/
def contentOf (m : SafetyMetric) : MetricData :=
  { latitude := m.latitude
    longitude := m.longitude
    metric_type := m.metric_type
    score := m.score
    question := m.question
    description := m.description }

/-- One raw input row as handed to `process_crime_data`: the `Option` fields
are the outcomes of `pd.to_datetime(..., errors="coerce")` on `date_occ`
(timestamp measured in days) and of `pd.to_numeric(..., errors="coerce")` on
`lat` / `lon`. -/
structure RawRecord where
  date_occ : Option ℚ
  lat : Option ℚ
  lon : Option ℚ
  crm_cd : String
deriving DecidableEq, Repr

/-- Hour of day of a timestamp measured in days (`df.date_occ.dt.hour`,
line 199). -/
def hourOf (t : ℚ) : ℤ :=
  Rat.floor (t * 24) - 24 * Rat.floor t

/-- Validation and derived columns for one row of `process_crime_data`
(lines 186-217): drop unparsable dates, strictly-future dates, unparsable
coordinates, and coordinates outside [33.70, 34.83] x [-118.67, -117.65]
(pandas `between`, inclusive); survivors get hour, days_ago and time_weight
columns.  The transcendental weight column is supplied by `tw` (its
real-valued definition is `timeWeight`). -/
def normalizeRecord (tw : ℚ → ℚ) (now : ℚ) (r : RawRecord) : Option CrimeRecord :=
  match r.date_occ with
  | none => none
  | some t =>
    if now < t then none
    else
      match r.lat, r.lon with
      | some la, some lo =>
        if 337/10 ≤ la ∧ la ≤ 3483/100 ∧ -11867/100 ≤ lo ∧ lo ≤ -11765/100 then
          some { lat := la, lon := lo, crm_cd := r.crm_cd, hour := hourOf t,
                 days_ago := now - t, time_weight := tw (now - t) }
        else none
      | _, _ => none

/-- `process_crime_data` on the whole raw batch. -/
def processCrimeData (tw : ℚ → ℚ) (now : ℚ) (raw : List RawRecord) : List CrimeRecord :=
  raw.filterMap (normalizeRecord tw now)

/-- `invalid_dates` counter (line 192): rows whose date failed to parse. -/
def invalidDatesCount (raw : List RawRecord) : ℕ :=
  (raw.filter (fun r => r.date_occ.isNone)).length

/-- `future_dates` counter (line 193): rows with a parsed date strictly in
the future. -/
def futureDatesCount (now : ℚ) (raw : List RawRecord) : ℕ :=
  (raw.filter (fun r =>
    match r.date_occ with
    | some t => decide (now < t)
    | none => false)).length

/-- `invalid_coords` counter (line 210): among rows surviving the date
filter, those with an unparsable latitude or longitude. -/
def invalidCoordsCount (now : ℚ) (raw : List RawRecord) : ℕ :=
  (raw.filter (fun r =>
    match r.date_occ with
    | some t => !decide (now < t) && (r.lat.isNone || r.lon.isNone)
    | none => false)).length

/-- One operation issued against the Supabase `safety_metrics` table by
`upload_to_supabase` (lines 361-381). -/
inductive StoreOp where
  | deleteAll : StoreOp
  | upsert : List SafetyMetric → StoreOp
deriving DecidableEq

/-- `metrics[i:i+50]` slicing of the upload loop (lines 372-375), recursion
fuelled by the list length. -/
def chunksAux : ℕ → List SafetyMetric → List (List SafetyMetric)
  | 0, _ => []
  | _ + 1, [] => []
  | fuel + 1, x :: xs => (x :: xs).take 50 :: chunksAux fuel ((x :: xs).drop 50)

def chunks50 (l : List SafetyMetric) : List (List SafetyMetric) :=
  chunksAux l.length l

/-- The operation sequence of `upload_to_supabase`: one delete of every
existing row (line 369), then one upsert per batch of 50 (lines 372-375). -/
def uploadOps (metrics : List SafetyMetric) : List StoreOp :=
  StoreOp.deleteAll :: (chunks50 metrics).map StoreOp.upsert

/-- Effect of one operation on the store contents. -/
def applyOp (store : List SafetyMetric) : StoreOp → List SafetyMetric
  | StoreOp.deleteAll => []
  | StoreOp.upsert b => store ++ b

/-- Store contents after a (possibly partial) prefix of the operations. -/
def runOps (store : List SafetyMetric) (ops : List StoreOp) : List SafetyMetric :=
  ops.foldl applyOp store

/-- Sample record: a vehicle crime strictly inside the first grid cell
(lat 33.705, lon -118.665). -/
def rV : CrimeRecord :=
  { lat := 6741/200, lon := -23733/200, crm_cd := "330", hour := 12,
    days_ago := 10, time_weight := 1 }

/-- Sample record sitting exactly on the latitude boundary 33.71 between the
first and second latitude buckets (lon -118.665, interior). -/
def rB : CrimeRecord :=
  { lat := 3371/100, lon := -23733/200, crm_cd := "330", hour := 12,
    days_ago := 10, time_weight := 1 }

/-- The single metric record emitted for the cell holding `rV`. -/
def mVehicle : MetricData :=
  mkMetricData [rV] (latLB 0) (lonLB 0) "vehicle" vehicleConfig [rV] [rV]

/-- Sample stored metric (pre-existing store contents). -/
def mA : SafetyMetric :=
  { id := "a", latitude := 0, longitude := 0, metric_type := "night", score := 8,
    question := "q", description := "d", created_at := "t0", expires_at := "t1" }

/-- Sample freshly computed metric. -/
def mB : SafetyMetric :=
  { id := "b", latitude := 1, longitude := 1, metric_type := "vehicle", score := 2,
    question := "r", description := "e", created_at := "t2", expires_at := "t3" }

/-- Claim C5: the temporal weight exp(-days * ln 2 / 180) is 1 at day 0,
exactly one half at day 180, strictly decreasing in days_since, and lies in
(0, 1] for every nonnegative days_since. -/
theorem claim_C5_time_weight :
    timeWeight 0 = 1 ∧ timeWeight 180 = 1/2 ∧ StrictAnti timeWeight ∧
    ∀ d : ℝ, 0 ≤ d → 0 < timeWeight d ∧ timeWeight d ≤ 1 := by
  have hlog : 0 < Real.log 2 := Real.log_pos (by norm_num)
  refine ⟨?_, ?_, ?_, ?_⟩
  · simp [timeWeight]
  · have h : (-(180 : ℝ)) * (Real.log 2 / 180) = -Real.log 2 := by ring
    rw [timeWeight, h, Real.exp_neg, Real.exp_log (by norm_num : (0:ℝ) < 2)]
    norm_num
  · intro a b hab
    unfold timeWeight
    apply Real.exp_lt_exp.mpr
    have hc : 0 < Real.log 2 / 180 := by positivity
    nlinarith
  · intro d hd
    refine ⟨Real.exp_pos _, ?_⟩
    rw [timeWeight, Real.exp_le_one_iff]
    have hc : 0 ≤ Real.log 2 / 180 := by positivity
    nlinarith

theorem claim_C5_witness : 0 < timeWeight 1 ∧ timeWeight 1 ≤ 1 :=
  claim_C5_time_weight.2.2.2 1 (by norm_num)

/-- Claim C3: relative_rate is local/citywide (1 when the citywide rate is
zero), the ladder of thresholds 0.3 / 0.7 / 1.5 gives scores 8 / 6 / 4 / 2
with labels Low / Medium / High / Maximum risk, first match wins; the score
is non-increasing in the relative rate and always one of 2, 4, 6, 8. -/
theorem claim_C3_risk_scorer :
    (∀ l c : ℚ, 0 < c → relativeRate l c = l / c) ∧
    (∀ l : ℚ, relativeRate l 0 = 1) ∧
    (∀ rr : ℚ, rr ≤ 3/10 → scoreRisk rr = (8, "Low risk")) ∧
    (∀ rr : ℚ, 3/10 < rr → rr ≤ 7/10 → scoreRisk rr = (6, "Medium risk")) ∧
    (∀ rr : ℚ, 7/10 < rr → rr ≤ 3/2 → scoreRisk rr = (4, "High risk")) ∧
    (∀ rr : ℚ, 3/2 < rr → scoreRisk rr = (2, "Maximum risk")) ∧
    (∀ a b : ℚ, a ≤ b → (scoreRisk b).1 ≤ (scoreRisk a).1) ∧
    (∀ rr : ℚ, (scoreRisk rr).1 ∈ ([2, 4, 6, 8] : List ℕ)) := by
  refine ⟨?_, ?_, ?_, ?_, ?_, ?_, ?_, ?_⟩
  · intro l c hc; simp [relativeRate, hc]
  · intro l; simp [relativeRate]
  · intro rr h; simp [scoreRisk, h]
  · intro rr h1 h2
    rw [scoreRisk, if_neg (by linarith), if_pos h2]
  · intro rr h1 h2
    rw [scoreRisk, if_neg (by linarith), if_neg (by linarith), if_pos h2]
  · intro rr h1
    rw [scoreRisk, if_neg (by linarith), if_neg (by linarith), if_neg (by linarith)]
  · intro a b hab
    unfold scoreRisk
    split_ifs <;> simp_all <;> linarith
  · intro rr
    unfold scoreRisk
    split_ifs <;> simp

theorem claim_C3_witness :
    relativeRate 1 2 = 1/2 ∧ scoreRisk (1/5) = (8, "Low risk") ∧
    scoreRisk (1/2) = (6, "Medium risk") ∧ scoreRisk 1 = (4, "High risk") ∧
    scoreRisk 2 = (2, "Maximum risk") :=
  ⟨by rw [claim_C3_risk_scorer.1 1 2 (by norm_num)],
   claim_C3_risk_scorer.2.2.1 (1/5) (by norm_num),
   claim_C3_risk_scorer.2.2.2.1 (1/2) (by norm_num) (by norm_num),
   claim_C3_risk_scorer.2.2.2.2.1 1 (by norm_num) (by norm_num),
   claim_C3_risk_scorer.2.2.2.2.2.1 2 (by norm_num)⟩

/-- Claim C4, counterexample: for a (cell, metric) pair whose maximal
days_ago is one half, the code computes historical_rate = 1 / 0.5 * 365 = 730
(the Python `or 1` fallback fires only at exactly zero), while the claimed
formula total / max(days_span, 1) * 365 gives 365. -/
theorem claim_C4_counterexample :
    historicalRateOf 1 (daysCoveredOf (1/2)) = 730 ∧
    specHistoricalRate 1 (1/2) = 365 ∧
    historicalRateOf 1 (daysCoveredOf (1/2)) ≠ specHistoricalRate 1 (1/2) := by
  norm_num [historicalRateOf, daysCoveredOf, specHistoricalRate]

/-- Claim C4, amended: recent_rate = recent_count / 90 * 365 (hence 0 with no
recent incidents); historical_rate = total_count / days_covered * 365 where
days_covered is the maximal days_ago when that maximum is nonzero and 1 when
it is zero — this agrees with the claimed max(days_span, 1) exactly when the
span is zero or at least 1; the trend is increasing exactly when
recent_rate > historical_rate * 1.2, decreasing exactly when
recent_rate < historical_rate * 0.8, stable otherwise. -/
theorem claim_C4_trend_analyzer :
    (∀ n : ℕ, recentRateOf n = (n : ℚ) / 90 * 365) ∧
    (daysCoveredOf 0 = 1) ∧
    (∀ x : ℚ, x ≠ 0 → daysCoveredOf x = x) ∧
    (∀ (total : ℕ) (x : ℚ), x = 0 ∨ 1 ≤ x →
      historicalRateOf total (daysCoveredOf x) = specHistoricalRate total x) ∧
    (∀ r h : ℚ, 0 ≤ h →
      (trendOf r h = "↑" ↔ h * (6/5) < r) ∧
      (trendOf r h = "↓" ↔ r < h * (4/5)) ∧
      (trendOf r h = "→" ↔ h * (4/5) ≤ r ∧ r ≤ h * (6/5))) := by
  refine ⟨?_, ?_, ?_, ?_, ?_⟩
  · intro n
    unfold recentRateOf
    split_ifs with h
    · rfl
    · have : n = 0 := by omega
      subst this; simp
  · simp [daysCoveredOf]
  · intro x hx; simp [daysCoveredOf, hx]
  · intro total x hx
    rcases hx with rfl | hx
    · simp [daysCoveredOf, specHistoricalRate, historicalRateOf]
    · rw [daysCoveredOf, if_neg (by linarith), specHistoricalRate,
        max_eq_left hx, historicalRateOf]
  · intro r h h0
    unfold trendOf
    split_ifs with h1 h2
    · refine ⟨by simp [h1], ?_, ?_⟩
      · constructor
        · intro hh; exact absurd hh (by decide)
        · intro hh; exfalso; nlinarith
      · constructor
        · intro hh; exact absurd hh (by decide)
        · intro hh; exfalso; nlinarith
    · refine ⟨?_, by simp [h2], ?_⟩
      · constructor
        · intro hh; exact absurd hh (by decide)
        · intro hh; exact absurd hh h1
      · constructor
        · intro hh; exact absurd hh (by decide)
        · intro hh; exfalso; nlinarith
    · refine ⟨?_, ?_, ?_⟩
      · constructor
        · intro hh; exact absurd hh (by decide)
        · intro hh; exact absurd hh h1
      · constructor
        · intro hh; exact absurd hh (by decide)
        · intro hh; exact absurd hh h2
      · exact ⟨fun _ => ⟨by linarith, by linarith⟩, fun _ => rfl⟩

lemma chunksAux_flatten :
    ∀ (fuel : ℕ) (l : List SafetyMetric), l.length ≤ fuel →
      (chunksAux fuel l).flatten = l := by
  intro fuel
  induction fuel with
  | zero =>
    intro l hl
    have : l = [] := List.eq_nil_of_length_eq_zero (by omega)
    subst this; rfl
  | succ f ih =>
    intro l hl
    match l with
    | [] => rfl
    | x :: xs =>
      have hd : ((x :: xs).drop 50).length ≤ f := by
        simp only [List.length_drop, List.length_cons] at hl ⊢
        omega
      rw [chunksAux, List.flatten_cons, ih ((x :: xs).drop 50) hd,
        List.take_append_drop]

lemma chunks50_flatten (l : List SafetyMetric) : (chunks50 l).flatten = l :=
  chunksAux_flatten l.length l le_rfl

lemma runOps_upserts :
    ∀ (bs : List (List SafetyMetric)) (store : List SafetyMetric),
      runOps store (bs.map StoreOp.upsert) = store ++ bs.flatten := by
  intro bs
  induction bs with
  | nil => intro store; simp [runOps]
  | cons b bs ih =>
    intro store
    rw [List.map_cons, runOps, List.foldl_cons]
    have := ih (applyOp store (StoreOp.upsert b))
    rw [runOps] at this
    rw [this, List.flatten_cons, applyOp, List.append_assoc]

theorem claim_C4_witness :
    daysCoveredOf 2 = 2 ∧
    historicalRateOf 3 (daysCoveredOf 2) = specHistoricalRate 3 2 ∧
    (trendOf 2 1 = "↑" ↔ (1 : ℚ) * (6/5) < 2) :=
  ⟨claim_C4_trend_analyzer.2.2.1 2 (by norm_num),
   claim_C4_trend_analyzer.2.2.2.1 3 2 (Or.inr (by norm_num)),
   (claim_C4_trend_analyzer.2.2.2.2 2 1 (by norm_num)).1⟩

/-- Claim C8, counterexample: the uploader issues two operations for a
nonempty batch (a delete of all rows, then batched upserts), and a run
interrupted right after the delete leaves the store emptied — a state equal
neither to the original store contents nor to the final replaced contents. -/
theorem claim_C8_counterexample :
    (uploadOps [mB]).length = 2 ∧
    runOps [mA] ((uploadOps [mB]).take 1) = [] ∧
    ([] : List SafetyMetric) ≠ [mA] ∧
    runOps [mA] (uploadOps [mB]) = [mB] ∧
    ([] : List SafetyMetric) ≠ [mB] := by
  refine ⟨rfl, rfl, by simp, rfl, by simp⟩

/-- Claim C8, amended: `upload_to_supabase` is not a single bulk emit — it
first deletes every stored metric and then upserts the new metrics in batches
of 50; a completed run replaces the store contents wholesale, but the store
state after only the first operation is the empty store, so a failure between
operations can leave the store partially overwritten. -/
theorem claim_C8_upload :
    ∀ (metrics store : List SafetyMetric),
      uploadOps metrics = StoreOp.deleteAll :: (chunks50 metrics).map StoreOp.upsert ∧
      runOps store (uploadOps metrics) = metrics ∧
      runOps store ((uploadOps metrics).take 1) = [] := by
  intro metrics store
  refine ⟨rfl, ?_, rfl⟩
  rw [uploadOps, runOps, List.foldl_cons]
  have h := runOps_upserts (chunks50 metrics) (applyOp store StoreOp.deleteAll)
  rw [runOps] at h
  rw [h, chunks50_flatten, applyOp, List.nil_append]

/-- Claim C7, counterexample: a raw record with a parseable, non-future date
and parseable coordinates lying outside the bounding box (lat 50) is dropped,
yet none of the three discard counters (invalid dates, future dates, invalid
coordinates) counts it. -/
theorem claim_C7_counterexample :
    normalizeRecord (fun _ => 1) 100 ⟨some 0, some 50, some (-118), "330"⟩ = none ∧
    invalidDatesCount [⟨some 0, some 50, some (-118), "330"⟩] = 0 ∧
    futureDatesCount 100 [⟨some 0, some 50, some (-118), "330"⟩] = 0 ∧
    invalidCoordsCount 100 [⟨some 0, some 50, some (-118), "330"⟩] = 0 := by
  refine ⟨?_, rfl, ?_, ?_⟩
  · rw [normalizeRecord]
    norm_num
  · rw [futureDatesCount]
    norm_num [List.filter]
  · rw [invalidCoordsCount]
    norm_num [List.filter]

/-- Claim C7, amended: a raw record survives ingestion iff its timestamp
parses and is not strictly in the future and its coordinates parse and lie
within [33.70, 34.83] x [-118.67, -117.65]; failing records are dropped
without raising; the unparsable-date, future-date and unparsable-coordinate
records are counted by the respective discard counters, but a record with
parseable coordinates outside the bounding box is dropped without being
counted by any of them; a dropped record never contributes to any grid
cell's contents. -/
theorem claim_C7_ingestion :
    (∀ (tw : ℚ → ℚ) (now : ℚ) (r : RawRecord),
      (normalizeRecord tw now r).isSome ↔
        ((∃ t, r.date_occ = some t ∧ t ≤ now) ∧
         (∃ la, r.lat = some la ∧ 337/10 ≤ la ∧ la ≤ 3483/100) ∧
         (∃ lo, r.lon = some lo ∧ -11867/100 ≤ lo ∧ lo ≤ -11765/100))) ∧
    (∀ (now : ℚ) (r : RawRecord), r.date_occ = none →
      invalidDatesCount [r] = 1 ∧ futureDatesCount now [r] = 0 ∧
      invalidCoordsCount now [r] = 0) ∧
    (∀ (now : ℚ) (r : RawRecord) (t : ℚ), r.date_occ = some t → now < t →
      invalidDatesCount [r] = 0 ∧ futureDatesCount now [r] = 1 ∧
      invalidCoordsCount now [r] = 0) ∧
    (∀ (now : ℚ) (r : RawRecord) (t : ℚ), r.date_occ = some t → t ≤ now →
      (r.lat.isNone ∨ r.lon.isNone) →
      invalidDatesCount [r] = 0 ∧ futureDatesCount now [r] = 0 ∧
      invalidCoordsCount now [r] = 1) ∧
    (∀ (tw : ℚ → ℚ) (now : ℚ) (r : RawRecord) (t la lo : ℚ),
      r.date_occ = some t → t ≤ now → r.lat = some la → r.lon = some lo →
      ¬(337/10 ≤ la ∧ la ≤ 3483/100 ∧ -11867/100 ≤ lo ∧ lo ≤ -11765/100) →
      normalizeRecord tw now r = none ∧ invalidDatesCount [r] = 0 ∧
      futureDatesCount now [r] = 0 ∧ invalidCoordsCount now [r] = 0) ∧
    (∀ (tw : ℚ → ℚ) (now : ℚ) (raw : List RawRecord) (la lo : ℚ)
      (c : CrimeRecord), c ∈ cellRecords (processCrimeData tw now raw) la lo →
      ∃ r ∈ raw, normalizeRecord tw now r = some c) := by
  refine ⟨?_, ?_, ?_, ?_, ?_, ?_⟩
  · intro tw now r
    obtain ⟨d, rla, rlo, rc⟩ := r
    rcases d with _ | t
    · simp [normalizeRecord]
    · rcases rla with _ | la
      · rcases rlo with _ | lo <;> simp [normalizeRecord]
      · rcases rlo with _ | lo
        · simp [normalizeRecord]
        · by_cases hf : now < t
          · simp only [normalizeRecord, if_pos hf, Option.isSome_none,
              Bool.false_eq_true, false_iff]
            intro h
            obtain ⟨⟨t', ht', hle⟩, _⟩ := h
            have : t' = t := by simpa using ht'.symm
            subst this
            exact absurd hle (not_le.mpr hf)
          · by_cases hbox : 337/10 ≤ la ∧ la ≤ 3483/100 ∧
                -11867/100 ≤ lo ∧ lo ≤ -11765/100
            · simp only [normalizeRecord, if_neg hf, if_pos hbox,
                Option.isSome_some, true_iff]
              exact ⟨⟨t, rfl, not_lt.mp hf⟩, ⟨la, rfl, hbox.1, hbox.2.1⟩,
                ⟨lo, rfl, hbox.2.2.1, hbox.2.2.2⟩⟩
            · simp only [normalizeRecord, if_neg hf, if_neg hbox,
                Option.isSome_none, Bool.false_eq_true, false_iff]
              intro h
              obtain ⟨_, ⟨la1, hla1, h1, h2⟩, ⟨lo1, hlo1, h3, h4⟩⟩ := h
              have e1 : la1 = la := by simpa using hla1.symm
              have e2 : lo1 = lo := by simpa using hlo1.symm
              subst e1; subst e2
              exact hbox ⟨h1, h2, h3, h4⟩
  · intro now r hd
    simp [invalidDatesCount, futureDatesCount, invalidCoordsCount,
      List.filter, hd]
  · intro now r t hd hf
    simp [invalidDatesCount, futureDatesCount, invalidCoordsCount,
      List.filter, hd, hf]
  · intro now r t hd hle hcoord
    have hnf : ¬ now < t := not_lt.mpr hle
    rcases hcoord with h | h <;>
      simp [invalidDatesCount, futureDatesCount, invalidCoordsCount,
        List.filter, hd, hnf, h]
  · intro tw now r t la lo hd hle hla hlo hbox
    have hnf : ¬ now < t := not_lt.mpr hle
    refine ⟨?_, ?_, ?_, ?_⟩
    · simp [normalizeRecord, hd, hnf, hla, hlo, hbox]
    · simp [invalidDatesCount, List.filter, hd]
    · simp [futureDatesCount, List.filter, hd, hnf]
    · simp [invalidCoordsCount, List.filter, hd, hnf, hla, hlo]
  · intro tw now raw la lo c hc
    have hmem : c ∈ processCrimeData tw now raw :=
      List.mem_of_mem_filter hc
    exact List.mem_filterMap.mp hmem

lemma cellMask_eq_true (la lo : ℚ) (r : CrimeRecord) :
    cellMask la lo r = true ↔
      la ≤ r.lat ∧ r.lat ≤ la + 1/100 ∧ lo ≤ r.lon ∧ r.lon ≤ lo + 1/100 := by
  simp [cellMask, and_assoc]

lemma latLB_mem {k : ℕ} (hk : k < 113) : latLB k ∈ lats :=
  List.mem_map.mpr ⟨k, List.mem_range.mpr hk, rfl⟩

lemma lonLB_mem {j : ℕ} (hj : j < 102) : lonLB j ∈ lons :=
  List.mem_map.mpr ⟨j, List.mem_range.mpr hj, rfl⟩

lemma mem_gridCells {k j : ℕ} (hk : k < 113) (hj : j < 102) :
    (latLB k, lonLB j) ∈ gridCells :=
  List.mem_flatMap.mpr ⟨latLB k, latLB_mem hk,
    List.mem_map.mpr ⟨lonLB j, lonLB_mem hj, rfl⟩⟩

lemma latLB_succ (k : ℕ) : latLB (k + 1) = latLB k + 1/100 := by
  unfold latLB
  push_cast
  ring

/-- Bucket existence: any x in [0, (n+1)/100] lies in some slot
[k/100, (k+1)/100] with k at most n. -/
lemma exists_bucket (n : ℕ) (x : ℚ) (h0 : 0 ≤ x) (h1 : x * 100 ≤ (n : ℚ) + 1) :
    ∃ k : ℕ, k ≤ n ∧ (k : ℚ)/100 ≤ x ∧ x ≤ ((k : ℚ) + 1)/100 := by
  have hx100 : (0 : ℚ) ≤ x * 100 := by positivity
  have hf : (0 : ℤ) ≤ ⌊x * 100⌋ := Int.floor_nonneg.mpr hx100
  have hcast : ((Int.toNat ⌊x * 100⌋ : ℕ) : ℚ) = ((⌊x * 100⌋ : ℤ) : ℚ) := by
    exact_mod_cast congrArg Int.cast (Int.toNat_of_nonneg hf)
  have hfl : ((⌊x * 100⌋ : ℤ) : ℚ) ≤ x * 100 := Int.floor_le _
  refine ⟨min (Int.toNat ⌊x * 100⌋) n, min_le_right _ _, ?_, ?_⟩
  · have h2 : ((min (Int.toNat ⌊x * 100⌋) n : ℕ) : ℚ) ≤
        ((Int.toNat ⌊x * 100⌋ : ℕ) : ℚ) :=
      Nat.cast_le.mpr (min_le_left _ _)
    rw [hcast] at h2
    linarith
  · rcases le_or_lt (⌊x * 100⌋) (n : ℤ) with hle | hgt
    · have hmin : min (Int.toNat ⌊x * 100⌋) n = Int.toNat ⌊x * 100⌋ :=
        min_eq_left (by omega)
      rw [hmin]
      have h5 : x * 100 < ((⌊x * 100⌋ : ℤ) : ℚ) + 1 := Int.lt_floor_add_one _
      rw [hcast]
      linarith
    · have hmin : min (Int.toNat ⌊x * 100⌋) n = n :=
        min_eq_right (by omega)
      rw [hmin]
      linarith

/-- If x lies in two distinct slots of the same 0.01-ladder, it sits exactly
on the shared boundary, which is the lower bound of the higher slot. -/
lemma bucket_overlap (base x : ℚ) (k q : ℕ)
    (hk1 : base + (k : ℚ)/100 ≤ x) (hk2 : x ≤ base + (k : ℚ)/100 + 1/100)
    (hq1 : base + (q : ℚ)/100 ≤ x) (hq2 : x ≤ base + (q : ℚ)/100 + 1/100)
    (hne : k ≠ q) :
    x = base + (k : ℚ)/100 ∨ x = base + (q : ℚ)/100 := by
  rcases Nat.lt_or_ge k q with hlt | hge
  · have hq : (q : ℚ) ≤ (k : ℚ) + 1 := by
      have : base + (q : ℚ)/100 ≤ base + (k : ℚ)/100 + 1/100 := le_trans hq1 hk2
      linarith
    have hq' : q ≤ k + 1 := by exact_mod_cast hq
    have heq : q = k + 1 := by omega
    subst heq
    right
    have : ((k : ℚ) + 1)/100 = (k : ℚ)/100 + 1/100 := by ring
    push_cast at hq1 ⊢
    linarith
  · have hlt : q < k := by omega
    have hk : (k : ℚ) ≤ (q : ℚ) + 1 := by
      have : base + (k : ℚ)/100 ≤ base + (q : ℚ)/100 + 1/100 := le_trans hk1 hq2
      linarith
    have hk' : k ≤ q + 1 := by exact_mod_cast hk
    have heq : k = q + 1 := by omega
    subst heq
    left
    push_cast at hk1 ⊢
    linarith

/-- Claim C1, counterexample: the record `rB` has in-bounds coordinates with
latitude exactly 33.71, a cell boundary; both the cell with lower corner
(33.70, -118.67) and the adjacent cell with lower corner (33.71, -118.67) are
grid cells and both contain `rB` (the pandas `between` filter is inclusive at
both endpoints), so `rB` is not contained in exactly one cell, and it lies in
a cell whose lower bound differs from its coordinate. -/
theorem claim_C1_counterexample :
    (337/10 ≤ rB.lat ∧ rB.lat ≤ 3483/100 ∧
      -11867/100 ≤ rB.lon ∧ rB.lon ≤ -11765/100) ∧
    (latLB 0, lonLB 0) ∈ gridCells ∧ (latLB 1, lonLB 0) ∈ gridCells ∧
    (latLB 0, lonLB 0) ≠ ((latLB 1, lonLB 0) : ℚ × ℚ) ∧
    cellRecords [rB] (latLB 0) (lonLB 0) = [rB] ∧
    cellRecords [rB] (latLB 1) (lonLB 0) = [rB] ∧
    latLB 0 ≠ rB.lat := by
  refine ⟨by norm_num [rB], mem_gridCells (by norm_num) (by norm_num),
    mem_gridCells (by norm_num) (by norm_num), ?_, ?_, ?_, ?_⟩
  · intro h
    have h1 : latLB 0 = latLB 1 := congrArg Prod.fst h
    unfold latLB at h1
    push_cast at h1
    linarith
  · rw [cellRecords, List.filter_cons, List.filter_nil]
    rw [if_pos ((cellMask_eq_true _ _ _).mpr (by norm_num [rB, latLB, lonLB]))]
  · rw [cellRecords, List.filter_cons, List.filter_nil]
    rw [if_pos ((cellMask_eq_true _ _ _).mpr (by norm_num [rB, latLB, lonLB]))]
  · norm_num [latLB, rB]

/-- Claim C1, amended: every validated record with in-bounds coordinates is
contained in at least one grid cell; a record contained in two cells with
different bucket indices along an axis lies exactly on a cell boundary of
that axis (the lower bound of one of the two cells), and a record whose
latitude is exactly an interior bucket lower bound latLB (k+1) is contained
in both the cell below and the cell at that bound, since the cell filter is
inclusive at both endpoints. -/
theorem claim_C1_grid_assignment :
    (∀ r : CrimeRecord, 337/10 ≤ r.lat → r.lat ≤ 3483/100 →
      -11867/100 ≤ r.lon → r.lon ≤ -11765/100 →
      ∃ k j : ℕ, k ≤ 112 ∧ j ≤ 101 ∧ (latLB k, lonLB j) ∈ gridCells ∧
        cellMask (latLB k) (lonLB j) r = true) ∧
    (∀ (r : CrimeRecord) (k j q p : ℕ),
      cellMask (latLB k) (lonLB j) r = true →
      cellMask (latLB q) (lonLB p) r = true →
      (k = q ∨ r.lat = latLB k ∨ r.lat = latLB q) ∧
      (j = p ∨ r.lon = lonLB j ∨ r.lon = lonLB p)) ∧
    (∀ (r : CrimeRecord) (k j : ℕ), k + 1 ≤ 112 → j ≤ 101 →
      r.lat = latLB (k + 1) → lonLB j ≤ r.lon → r.lon ≤ lonLB j + 1/100 →
      cellMask (latLB k) (lonLB j) r = true ∧
      cellMask (latLB (k + 1)) (lonLB j) r = true) := by
  refine ⟨?_, ?_, ?_⟩
  · intro r h1 h2 h3 h4
    obtain ⟨k, hk, hk1, hk2⟩ :=
      exists_bucket 112 (r.lat - 337/10) (by linarith) (by push_cast; linarith)
    obtain ⟨j, hj, hj1, hj2⟩ :=
      exists_bucket 101 (r.lon + 11867/100) (by linarith) (by push_cast; linarith)
    refine ⟨k, j, hk, hj, mem_gridCells (by omega) (by omega), ?_⟩
    rw [cellMask_eq_true]
    unfold latLB lonLB
    refine ⟨by linarith, by linarith, by linarith, by linarith⟩
  · intro r k j q p hm1 hm2
    rw [cellMask_eq_true] at hm1 hm2
    unfold latLB lonLB at hm1 hm2
    constructor
    · by_cases hkq : k = q
      · exact Or.inl hkq
      · rcases bucket_overlap (337/10) r.lat k q (by linarith [hm1.1])
          (by linarith [hm1.2.1]) (by linarith [hm2.1])
          (by linarith [hm2.2.1]) hkq with h | h
        · exact Or.inr (Or.inl (by unfold latLB; linarith))
        · exact Or.inr (Or.inr (by unfold latLB; linarith))
    · by_cases hjp : j = p
      · exact Or.inl hjp
      · rcases bucket_overlap (-11867/100) r.lon j p (by linarith [hm1.2.2.1])
          (by linarith [hm1.2.2.2]) (by linarith [hm2.2.2.1])
          (by linarith [hm2.2.2.2]) hjp with h | h
        · exact Or.inr (Or.inl (by unfold lonLB; linarith))
        · exact Or.inr (Or.inr (by unfold lonLB; linarith))
  · intro r k j hk hj hlat hlo1 hlo2
    have hs := latLB_succ k
    constructor
    · rw [cellMask_eq_true]
      refine ⟨by rw [hlat, hs]; linarith [show (0:ℚ) ≤ 1/100 by norm_num], ?_,
        hlo1, hlo2⟩
      rw [hlat, hs]
    · rw [cellMask_eq_true]
      refine ⟨le_of_eq hlat.symm, ?_, hlo1, hlo2⟩
      rw [hlat]
      linarith [show (0:ℚ) ≤ 1/100 by norm_num]

theorem claim_C1_witness :
    ∃ k j : ℕ, k ≤ 112 ∧ j ≤ 101 ∧ (latLB k, lonLB j) ∈ gridCells ∧
      cellMask (latLB k) (lonLB j) rB = true :=
  claim_C1_grid_assignment.1 rB (by norm_num [rB]) (by norm_num [rB])
    (by norm_num [rB]) (by norm_num [rB])

lemma cellRecords_rV : cellRecords [rV] (latLB 0) (lonLB 0) = [rV] := by
  rw [cellRecords, List.filter_cons, List.filter_nil]
  rw [if_pos ((cellMask_eq_true _ _ _).mpr (by norm_num [rV, latLB, lonLB]))]

/-- Claim C10: every time weight produced by the temporal weighting stage is
strictly positive (it is an exponential), and consequently the total weight
of any non-empty grid cell is strictly positive, so the division by the
cell's weight sum in the local-rate computation never divides by zero. -/
theorem claim_C10_no_div_by_zero :
    (∀ d : ℝ, 0 < timeWeight d) ∧
    (∀ (data : List CrimeRecord) (la lo : ℚ),
      (∀ r ∈ data, 0 < r.time_weight) → cellRecords data la lo ≠ [] →
      0 < weightSum (cellRecords data la lo)) := by
  constructor
  · intro d
    exact Real.exp_pos _
  · intro data la lo hw hne
    rw [weightSum]
    apply List.sum_pos
    · intro x hx
      obtain ⟨r, hr, rfl⟩ := List.mem_map.mp hx
      exact hw r (List.mem_of_mem_filter hr)
    · simpa using hne

theorem claim_C10_witness : 0 < weightSum (cellRecords [rV] (latLB 0) (lonLB 0)) :=
  claim_C10_no_div_by_zero.2 [rV] (latLB 0) (lonLB 0)
    (by intro r hr; rw [List.mem_singleton] at hr; subst hr; norm_num [rV])
    (by rw [cellRecords_rV]; simp)

lemma qualifying_nil (cfg : MetricConfig) : qualifying cfg [] = [] := rfl

lemma mem_cellMetricsData {data : List CrimeRecord} {la lo : ℚ} {m : MetricData}
    (h : m ∈ cellMetricsData data la lo) :
    ∃ cfg, (m.metric_type, cfg) ∈ SAFETY_METRICS ∧
      qualifying cfg (cellRecords data la lo) ≠ [] ∧
      m = mkMetricData data la lo m.metric_type cfg (cellRecords data la lo)
            (qualifying cfg (cellRecords data la lo)) ∧
      m.latitude = la + 1/200 ∧ m.longitude = lo + 1/200 := by
  simp only [cellMetricsData] at h
  by_cases hg : (cellRecords data la lo).isEmpty
  · rw [if_pos hg] at h
    exact absurd h (List.not_mem_nil m)
  · rw [if_neg hg] at h
    obtain ⟨mc, hmc, hsome⟩ := List.mem_filterMap.mp h
    by_cases hq : (qualifying mc.2 (cellRecords data la lo)).isEmpty
    · rw [if_pos hq] at hsome
      exact absurd hsome (by simp)
    · rw [if_neg hq] at hsome
      have hm : m = mkMetricData data la lo mc.1 mc.2 (cellRecords data la lo)
          (qualifying mc.2 (cellRecords data la lo)) :=
        (Option.some.injEq _ _ ▸ hsome).symm
      have hmt : m.metric_type = mc.1 := by rw [hm]; rfl
      refine ⟨mc.2, ?_, ?_, ?_, by rw [hm]; rfl, by rw [hm]; rfl⟩
      · rw [hmt]
        exact hmc
      · intro hnil
        rw [hnil] at hq
        exact hq rfl
      · rw [hmt]
        exact hm

lemma cellMetricsData_emits {data : List CrimeRecord} {la lo : ℚ} {mt : String}
    {cfg : MetricConfig} (hmem : (mt, cfg) ∈ SAFETY_METRICS)
    (hq : qualifying cfg (cellRecords data la lo) ≠ []) :
    mkMetricData data la lo mt cfg (cellRecords data la lo)
      (qualifying cfg (cellRecords data la lo)) ∈ cellMetricsData data la lo := by
  have hg : ¬ (cellRecords data la lo).isEmpty = true := by
    intro hg
    rw [List.isEmpty_iff] at hg
    exact hq (by rw [hg, qualifying_nil])
  simp only [cellMetricsData]
  rw [if_neg hg]
  apply List.mem_filterMap.mpr
  refine ⟨(mt, cfg), hmem, ?_⟩
  have hqe : ¬ (qualifying cfg (cellRecords data la lo)).isEmpty = true := by
    intro h
    exact hq (List.isEmpty_iff.mp h)
  rw [if_neg hqe]

lemma metric_key_unique {k : String} {v w : MetricConfig}
    (hv : (k, v) ∈ SAFETY_METRICS) (hw : (k, w) ∈ SAFETY_METRICS) : v = w := by
  simp only [SAFETY_METRICS, List.mem_cons, List.not_mem_nil, or_false,
    Prod.mk.injEq] at hv hw
  rcases hv with ⟨h1, rfl⟩ | ⟨h1, rfl⟩ | ⟨h1, rfl⟩ | ⟨h1, rfl⟩ | ⟨h1, rfl⟩ <;>
    rcases hw with ⟨h2, rfl⟩ | ⟨h2, rfl⟩ | ⟨h2, rfl⟩ | ⟨h2, rfl⟩ | ⟨h2, rfl⟩ <;>
      first
        | rfl
        | exact absurd (h1.symm.trans h2) (by decide)

/-- Claim C6: for a grid cell and a configured metric, an output record for
that cell (identified by its center coordinates) and that metric exists iff
at least one record assigned to the cell qualifies for the metric (category
code in the metric's code set and, when present, the time-of-day predicate
satisfied); in particular an empty cell emits nothing. -/
theorem claim_C6_presence (data : List CrimeRecord) (mt : String)
    (cfg : MetricConfig) (la lo : ℚ) (hmc : (mt, cfg) ∈ SAFETY_METRICS)
    (hcell : (la, lo) ∈ gridCells) :
    (∃ m ∈ allMetricsData data, m.latitude = la + 1/200 ∧
      m.longitude = lo + 1/200 ∧ m.metric_type = mt) ↔
    qualifying cfg (cellRecords data la lo) ≠ [] := by
  constructor
  · rintro ⟨m, hm, hla, hlo, hmt⟩
    obtain ⟨c, hc, hmcell⟩ := List.mem_flatMap.mp hm
    obtain ⟨cfg2, hmem2, hq2, _, h1, h2⟩ := mem_cellMetricsData hmcell
    have e1 : c.1 = la := by
      have := h1.symm.trans hla
      linarith
    have e2 : c.2 = lo := by
      have := h2.symm.trans hlo
      linarith
    rw [e1, e2] at hq2
    rw [hmt] at hmem2
    rw [metric_key_unique hmc hmem2]
    exact hq2
  · intro hq
    exact ⟨mkMetricData data la lo mt cfg (cellRecords data la lo)
        (qualifying cfg (cellRecords data la lo)),
      List.mem_flatMap.mpr ⟨(la, lo), hcell, cellMetricsData_emits hmc hq⟩,
      rfl, rfl, rfl⟩

theorem claim_C6_witness :
    (∃ m ∈ allMetricsData [], m.latitude = latLB 0 + 1/200 ∧
      m.longitude = lonLB 0 + 1/200 ∧ m.metric_type = "night") ↔
    qualifying nightConfig (cellRecords [] (latLB 0) (lonLB 0)) ≠ [] :=
  claim_C6_presence [] "night" nightConfig (latLB 0) (lonLB 0)
    (by simp [SAFETY_METRICS]) (mem_gridCells (by norm_num) (by norm_num))

lemma scoreRisk_snd_mem (rr : ℚ) :
    (scoreRisk rr).2 ∈
      (["Low risk", "Medium risk", "High risk", "Maximum risk"] : List String) := by
  unfold scoreRisk
  split_ifs <;> simp

lemma trendOf_mem (r h : ℚ) : trendOf r h ∈ (["↑", "↓", "→"] : List String) := by
  unfold trendOf
  split_ifs <;> simp

lemma cellMetricsData_rV :
    cellMetricsData [rV] (latLB 0) (lonLB 0) = [mVehicle] := by
  simp only [cellMetricsData, cellRecords_rV]
  rfl

/-- Claim C2, counterexample: the pipeline does emit records (here one for a
single vehicle crime), but the emitted dict carries none of the keys
risk_level, trend, recent_count, total_count or computed_at — its keys are
id, latitude, longitude, metric_type, score, question, description,
created_at, expires_at. -/
theorem claim_C2_counterexample :
    allMetricsData [rV] ≠ [] ∧
    "risk_level" ∉ safetyMetricKeys ∧
    "trend" ∉ safetyMetricKeys ∧
    "recent_count" ∉ safetyMetricKeys ∧
    "total_count" ∉ safetyMetricKeys ∧
    "computed_at" ∉ safetyMetricKeys := by
  refine ⟨?_, by decide, by decide, by decide, by decide, by decide⟩
  have hm : mVehicle ∈ cellMetricsData [rV] (latLB 0) (lonLB 0) := by
    rw [cellMetricsData_rV]
    exact List.mem_singleton.mpr rfl
  exact List.ne_nil_of_mem (List.mem_flatMap.mpr
    ⟨(latLB 0, lonLB 0), mem_gridCells (by norm_num) (by norm_num), hm⟩)

/-- Claim C2, amended: an emitted record carries exactly the fields id,
latitude, longitude, metric_type, score, question, description, created_at
and expires_at; there are no top-level risk_level, trend, recent_count,
total_count or computed_at fields — the risk label (one of the four
categorical labels), a trend symbol drawn from up/down/right arrows (not
"up"/"down"/"stable") and the recent and total counts appear only embedded
in the description string. -/
theorem claim_C2_emitted_fields :
    safetyMetricKeys = ["id", "latitude", "longitude", "metric_type", "score",
      "question", "description", "created_at", "expires_at"] ∧
    (∀ r h : ℚ, trendOf r h ∈ (["↑", "↓", "→"] : List String)) ∧
    (∀ (data : List CrimeRecord) (la lo : ℚ) (m : MetricData),
      m ∈ cellMetricsData data la lo →
      ∃ (risk trend : String) (total recent : ℕ) (rr : ℚ) (cfg : MetricConfig),
        (m.metric_type, cfg) ∈ SAFETY_METRICS ∧
        risk ∈ (["Low risk", "Medium risk", "High risk", "Maximum risk"] :
          List String) ∧
        trend ∈ (["↑", "↓", "→"] : List String) ∧
        m.score = (scoreRisk rr).1 ∧ risk = (scoreRisk rr).2 ∧
        m.description = risk ++ ". " ++ cfg.description ++
          debugInfo total recent trend rr) := by
  refine ⟨rfl, trendOf_mem, ?_⟩
  intro data la lo m hm
  obtain ⟨cfg, hmem, _, heq, _, _⟩ := mem_cellMetricsData hm
  rw [heq] at hmem ⊢
  exact ⟨_, _, _, _, _, cfg, hmem, scoreRisk_snd_mem _, trendOf_mem _ _,
    rfl, rfl, rfl⟩

theorem claim_C2_witness :
    ∃ (risk trend : String) (total recent : ℕ) (rr : ℚ) (cfg : MetricConfig),
      (mVehicle.metric_type, cfg) ∈ SAFETY_METRICS ∧
      risk ∈ (["Low risk", "Medium risk", "High risk", "Maximum risk"] :
        List String) ∧
      trend ∈ (["↑", "↓", "→"] : List String) ∧
      mVehicle.score = (scoreRisk rr).1 ∧ risk = (scoreRisk rr).2 ∧
      mVehicle.description = risk ++ ". " ++ cfg.description ++
        debugInfo total recent trend rr :=
  claim_C2_emitted_fields.2.2 [rV] (latLB 0) (lonLB 0) mVehicle
    (by rw [cellMetricsData_rV]; exact List.mem_singleton.mpr rfl)

/-- Claim C9: two runs of the metric computation on the same record set
agree on everything except the generated ids and the created_at/expires_at
timestamps: the projection that drops those three fields is identical for
any two id/timestamp supplies. -/
theorem claim_C9_idempotence :
    ∀ (data : List CrimeRecord) (g1 n1 e1 g2 n2 e2 : ℕ → String),
      (calcMetrics data g1 n1 e1).map contentOf =
      (calcMetrics data g2 n2 e2).map contentOf := by
  intro data g1 n1 e1 g2 n2 e2
  simp only [calcMetrics, List.map_map]
  rfl

theorem claim_C7_witness :
    normalizeRecord (fun _ => 1) 100 ⟨some 0, some 50, some (-118), "624"⟩ = none ∧
    invalidDatesCount [⟨some 0, some 50, some (-118), "624"⟩] = 0 ∧
    futureDatesCount 100 [⟨some 0, some 50, some (-118), "624"⟩] = 0 ∧
    invalidCoordsCount 100 [⟨some 0, some 50, some (-118), "624"⟩] = 0 :=
  claim_C7_ingestion.2.2.2.2.1 (fun _ => 1) 100 ⟨some 0, some 50, some (-118), "624"⟩
    0 50 (-118) rfl (by norm_num) rfl rfl (by norm_num)

end SafetyProc
